import Mathlib

/-!
Verification of the ScribeDash ingestion pipeline.

This file gives a shallow embedding, in Lean 4, of the data-reshaping and
fetching layer of the ScribeDash repository:

* `scribedash/google.py` — the retry wrapper `_with_retries`, the raw fetch
  `fetch_values`, and the raw-to-table normalizer `values_to_dataframe`;
* `scribedash/ingest.py` — the safe parsers `_parse_int_safe` and the
  designated-column coercion of `load_patient_count`;
* `src/utils/google_sheets.py` — `GoogleSheetsConnector.get_sheet_data`
  (cache + fallback behaviour, modelled with an explicit object heap so that
  Python object identity and `.copy()` are visible) and the numeric-coercion
  loop of `GoogleSheetsConnector._clean_dataframe`;
* `src/utils/data_processor.py` — the provider consistency score of
  `_process_provider_data` (modelled over exact rationals with an explicit
  IEEE-style extended value type carrying NaN and ±infinity) and the summary
  accessors `get_scribe_performance` / `get_team_comparison`.

Machine floats are modelled as exact rationals extended with NaN and ±∞;
Python exceptions are modelled with `Except` / explicit result types.
-/

namespace ScribeDash

/-- Model of the Python exceptions that flow through this code base.
`transient` stands for a connectivity / quota / 5xx-style error, `notFound`
for gspread's `WorksheetNotFound` / an HTTP 404 on an unknown tab, and
`runtimeError` for the `RuntimeError` raised by `_with_retries` when it exits
its loop without a captured exception.  The payload is an abstract message
identifier. -/
inductive PyExn where
  | transient (msg : Nat)
  | notFound (msg : Nat)
  | runtimeError
  | keyError (col : String)
deriving DecidableEq, Repr

/-- Decidable equality for modelled call results (component-wise). -/
instance {ε α : Type} [DecidableEq ε] [DecidableEq α] : DecidableEq (Except ε α) :=
  fun x y =>
    match x, y with
    | .ok a, .ok b =>
        if h : a = b then .isTrue (by rw [h]) else .isFalse (by simp [h])
    | .error a, .error b =>
        if h : a = b then .isTrue (by rw [h]) else .isFalse (by simp [h])
    | .ok _, .error _ => .isFalse (by simp)
    | .error _, .ok _ => .isFalse (by simp)

namespace Google

/-! ### `_with_retries` (scribedash/google.py, lines 38–56)

```python
def _with_retries(fn, *, attempts: int = 5, base_delay: float = 0.5, max_delay: float = 5.0):
    last_err = None
    for i in range(attempts):
        try:
            return fn()
        except Exception as e:
            last_err = e
            delay = min(max_delay, base_delay * (2 ** i)) * (0.7 + 0.6 * random.random())
            logger.warning(...)
            time.sleep(delay)
    if last_err is not None:
        raise last_err
    raise RuntimeError("Unknown error in _with_retries without captured exception")
```

The zero-argument Python callable `fn` is stateful (each invocation can give a
different outcome), so it is embedded as a function from the invocation index
`i` to that invocation's outcome.  The wrapper never inspects the exception
(`except Exception` is a blanket catch), and it sleeps after *every* caught
exception, including the one of the final attempt.  The trace records, besides
the outcome, how many times `fn` was invoked and how many times the wrapper
slept; the jittered delay durations are irrelevant to the properties proved
here and are not modelled. -/

/-- Outcome of one run of `_with_retries`: a value returned from `fn`, the
re-raised last captured exception, or the `RuntimeError` raised when the loop
body never ran (`attempts = 0`). -/
inductive RetryOutcome (ε α : Type) where
  | returned (a : α)
  | raised (e : ε)
  | runtimeError
deriving DecidableEq, Repr

/-- Execution trace of `_with_retries`: the outcome together with the number
of invocations of `fn` and the number of `time.sleep` calls. -/
structure RetryTrace (ε α : Type) where
  outcome : RetryOutcome ε α
  calls : Nat
  sleeps : Nat
deriving DecidableEq, Repr

/-- The `for i in range(attempts)` loop of `_with_retries`, starting at
invocation index `i` with `n` loop iterations remaining and `lastErr` the
most recent captured exception. -/
def withRetriesGo (fn : Nat → Except ε α) (lastErr : Option ε) (i : Nat) :
    Nat → RetryTrace ε α
  | 0 =>
      -- loop exhausted: `raise last_err` when one was captured, else the
      -- fallback `RuntimeError`
      { outcome := match lastErr with
          | some e => .raised e
          | none => .runtimeError
        calls := 0, sleeps := 0 }
  | n + 1 =>
      match fn i with
      | .ok a => { outcome := .returned a, calls := 1, sleeps := 0 }
      | .error e =>
          let rest := withRetriesGo fn (some e) (i + 1) n
          { outcome := rest.outcome, calls := rest.calls + 1, sleeps := rest.sleeps + 1 }

/-- `_with_retries(fn, attempts=attempts)`. -/
def withRetries (fn : Nat → Except ε α) (attempts : Nat) : RetryTrace ε α :=
  withRetriesGo fn none 0 attempts

/-! ### `fetch_values` (scribedash/google.py, lines 71–88)

The inner `_call` performs the Sheets API request and returns the response
dictionary; `fetch_values` runs it through `_with_retries` (with the default
`attempts = 5`) and extracts `result.get("values", [])`.  The response is
modelled as an optional raw matrix (`none` when the `"values"` key is absent,
as for an empty sheet); an exception escaping `_with_retries` propagates. -/

/-- The response dictionary of the `values().get(...).execute()` call:
only the optional `"values"` entry matters downstream. -/
structure SheetsResponse where
  values? : Option (List (List String))
deriving DecidableEq, Repr

/-- `fetch_values(service, spreadsheet_id, sheet_title)`, with the remote call
abstracted as `call` (outcome per invocation index). -/
def fetch_values (call : Nat → Except PyExn SheetsResponse) :
    Except PyExn (List (List String)) :=
  match (withRetries call 5).outcome with
  | .returned r => .ok (r.values?.getD [])
  | .raised e => .error e
  | .runtimeError => .error .runtimeError

/-! ### `values_to_dataframe` (scribedash/google.py, lines 91–100)

```python
def values_to_dataframe(values):
    if not values:
        return pd.DataFrame()
    max_len = max(len(r) for r in values)
    rows = [r + [""] * (max_len - len(r)) for r in values]
    headers = rows[0]
    has_headers = any(h != "" for h in headers) and len(set(headers)) == len(headers)
    if has_headers:
        return pd.DataFrame(rows[1:], columns=headers)
    return pd.DataFrame(rows)
```

A pandas `DataFrame` built this way has either the explicit string column
labels `headers`, or a `RangeIndex` of positional integer labels `0 .. n-1`;
the column axis is modelled accordingly.  `len(set(headers)) == len(headers)`
is embedded as `headers.dedup.length = headers.length`. -/

/-- Column axis of a DataFrame: explicit string labels, or the positional
integer labels `0 .. n - 1` of a `RangeIndex` of width `n`. -/
inductive Columns where
  | named (labels : List String)
  | range (n : Nat)
deriving DecidableEq, Repr

/-- A raw (all-string) DataFrame as produced by `values_to_dataframe`. -/
structure Df where
  columns : Columns
  rows : List (List String)
deriving DecidableEq, Repr

/-- Right-pad a row with empty strings to length `maxLen`
(`r + [""] * (max_len - len(r))`). -/
def padRow (maxLen : Nat) (r : List String) : List String :=
  r ++ List.replicate (maxLen - r.length) ""

/-- `max(len(r) for r in values)` (0 for the empty list, where the Python
generator would instead raise; `values_to_dataframe` only evaluates it on
non-empty input). -/
def maxRowLen (values : List (List String)) : Nat :=
  (values.map List.length).foldr max 0

/-- `values_to_dataframe(values)`. -/
def values_to_dataframe (values : List (List String)) : Df :=
  match values with
  | [] => { columns := .range 0, rows := [] }   -- pd.DataFrame()
  | v0 :: vs =>
      let maxLen := maxRowLen (v0 :: vs)
      let headers := padRow maxLen v0            -- rows[0]
      let body := vs.map (padRow maxLen)         -- rows[1:]
      if headers.any (fun h => h ≠ "") && (headers.dedup.length = headers.length : Bool)
      then { columns := .named headers, rows := body }
      else { columns := .range maxLen, rows := headers :: body }

/-- The contents of an empty `pd.DataFrame()`: zero rows, zero columns. -/
def emptyDf : Df := { columns := .range 0, rows := [] }

/-- `df[name]` on a header-labelled frame: the named column's cells (first
occurrence of a duplicated label), `none` when the label is absent. -/
def Df.col? (df : Df) (name : String) : Option (List String) :=
  match df.columns with
  | .named labels =>
      if name ∈ labels
      then some (df.rows.map (fun r => r.getD (labels.indexOf name) ""))
      else none
  | .range _ => none

end Google

/-! ## Cell parsers

The pipeline parses numeric cells in two different ways:

* `scribedash/ingest.py` calls Python's builtin `int(x)` / `float(x)` inside a
  `try/except` (`_parse_int_safe`, `_parse_float_safe`);
* `src/utils/google_sheets.py` calls `pd.to_numeric(..., errors="coerce")`.

Both are modelled here over exact rationals / integers on ASCII input.
Python's `int` accepts surrounding whitespace, an optional sign, and decimal
digits with single underscores between digits; it does *not* strip currency
or thousands separators, so `int("1,000")` raises `ValueError`.
`pd.to_numeric` accepts surrounding whitespace, an optional sign, a decimal
mantissa with an optional point, and an optional exponent; it accepts no
underscores.  (IEEE `inf`/`nan` literals are not modelled: such a cell is
treated as an unparseable cell, which coincides with the code's behaviour for
`nan` and does not affect any input considered here.) -/

/-- Numeric value of a decimal digit character. -/
def digitVal (c : Char) : Nat := c.toNat - 48

/-- Strip leading and trailing ASCII whitespace from a character list (the
whitespace tolerance of both `int()` and the `pd.to_numeric` parser). -/
def trimWs (cs : List Char) : List Char :=
  ((cs.dropWhile Char.isWhitespace).reverse.dropWhile Char.isWhitespace).reverse

/-- Parse a run of decimal digits allowing single underscores *between*
digits (Python integer-literal grammar), accumulating into `acc`.
Fails on a trailing underscore, a doubled underscore, or any non-digit. -/
def pyDigitsGo (acc : Nat) : List Char → Option Nat
  | [] => some acc
  | '_' :: c :: cs =>
      if c.isDigit then pyDigitsGo (acc * 10 + digitVal c) cs else none
  | ['_'] => none
  | c :: cs => if c.isDigit then pyDigitsGo (acc * 10 + digitVal c) cs else none

/-- Parse a non-empty digit run (with Python's between-digit underscores). -/
def pyDigits : List Char → Option Nat
  | [] => none
  | c :: cs => if c.isDigit then pyDigitsGo (digitVal c) cs else none

/-- Python's builtin `int(s)` on a string: `none` models a raised
`ValueError`. -/
def pyInt (s : String) : Option Int :=
  match trimWs s.data with
  | '+' :: r => (pyDigits r).map Int.ofNat
  | '-' :: r => (pyDigits r).map (fun n => -(n : Int))
  | r => (pyDigits r).map Int.ofNat

/-- Split a character list at the first occurrence of `c`; `none` when `c`
does not occur. -/
def splitAtChar (c : Char) : List Char → List Char × Option (List Char)
  | [] => ([], none)
  | x :: xs =>
      if x = c then ([], some xs)
      else
        let r := splitAtChar c xs
        (x :: r.1, r.2)

/-- Parse a possibly-empty digit run, returning its value and its number of
digits; fails on any non-digit (no underscores). -/
def digitsValGo (acc len : Nat) : List Char → Option (Nat × Nat)
  | [] => some (acc, len)
  | c :: cs =>
      if c.isDigit then digitsValGo (acc * 10 + digitVal c) (len + 1) cs else none

/-- Decimal mantissa: digits, optionally with one decimal point; at least one
digit overall (`"5."` and `".5"` parse, `"."` does not). -/
def parseMantissa (cs : List Char) : Option ℚ :=
  match splitAtChar '.' cs with
  | (ip, none) =>
      match digitsValGo 0 0 ip with
      | some (v, _ + 1) => some (v : ℚ)
      | _ => none
  | (ip, some fp) =>
      match digitsValGo 0 0 ip, digitsValGo 0 0 fp with
      | some (vi, ni), some (vf, nf) =>
          if ni + nf = 0 then none
          else some ((vi : ℚ) + (vf : ℚ) / (10 : ℚ) ^ nf)
      | _, _ => none

/-- Exponent part: optional sign, then a non-empty digit run. -/
def parseExp (cs : List Char) : Option ℤ :=
  match cs with
  | '+' :: r => ((digitsValGo 0 0 r).bind fun p =>
      if 0 < p.2 then some (Int.ofNat p.1) else none)
  | '-' :: r => ((digitsValGo 0 0 r).bind fun p =>
      if 0 < p.2 then some (-(p.1 : Int)) else none)
  | r => ((digitsValGo 0 0 r).bind fun p =>
      if 0 < p.2 then some (Int.ofNat p.1) else none)

/-- Split at the first exponent marker (`e` or `E`); `none` when absent. -/
def splitAtExp : List Char → List Char × Option (List Char)
  | [] => ([], none)
  | x :: xs =>
      if x = 'e' || x = 'E' then ([], some xs)
      else
        let r := splitAtExp xs
        (x :: r.1, r.2)

/-- Unsigned float: mantissa with an optional `e`/`E`-exponent. -/
def parseUnsignedFloat (cs : List Char) : Option ℚ :=
  match splitAtExp cs with
  | (mant, none) => parseMantissa mant
  | (mant, some ex) =>
      match parseMantissa mant, parseExp ex with
      | some m, some e => some (m * (10 : ℚ) ^ e)
      | _, _ => none

/-- `pd.to_numeric(cell, errors="coerce")` on a single string cell: `none`
models the NaN produced for an unparseable cell. -/
def pdToNumeric (s : String) : Option ℚ :=
  match trimWs s.data with
  | '+' :: r => parseUnsignedFloat r
  | '-' :: r => (parseUnsignedFloat r).map Neg.neg
  | r => parseUnsignedFloat r

namespace Ingest

/-! ### `scribedash/ingest.py`

```python
def _parse_int_safe(x) -> Optional[int]:
    try:
        return int(x)
    except Exception:
        return None
```

and the designated-column coercion of `load_patient_count` (lines 42–61):
after the unconditional label canonicalization of line 46, each column whose
(already canonicalized) name is in the fixed month list is replaced, with no
guard, by the result of `df[col].apply(_parse_int_safe)`:

```python
for col in ["jan","feb","mar","apr","may","jun","july","august","avg"]:
    if col in df.columns:
        df[col] = df[col].apply(_parse_int_safe)
```
-/

/-- `_parse_int_safe(x)` for a string cell: `int(x)`, with any exception
turned into `None`. -/
def parse_int_safe (x : String) : Option Int := pyInt x

/-- The designated month/average columns of `load_patient_count`. -/
def monthCols : List String :=
  ["jan", "feb", "mar", "apr", "may", "jun", "july", "august", "avg"]

/-- One column's fate under `load_patient_count`'s coercion loop: a column
whose canonicalized name is designated is replaced (unconditionally) by the
per-cell `_parse_int_safe` results; any other column keeps its raw strings. -/
def coerceMonthColumn (name : String) (cells : List String) :
    List String ⊕ List (Option Int) :=
  if name ∈ monthCols then .inr (cells.map parse_int_safe) else .inl cells

/-- The whole coercion loop of `load_patient_count` over a frame given as a
list of (canonicalized column name, cells). -/
def loadPatientCountCoerce (cols : List (String × List String)) :
    List (String × (List String ⊕ List (Option Int))) :=
  cols.map (fun c => (c.1, coerceMonthColumn c.1 c.2))

end Ingest

/-- Comparator following the claim's words, *not* the source (refinement
check for the ingest coercion path): "parsing is attempted after stripping
the characters `$`, `%` and `,`" — i.e. strip those symbols, then parse as an
integer, failures becoming missing. -/
def claimedStripThenParseInt (s : String) : Option Int :=
  pyInt ⟨s.toList.filter (fun c => !(c = '%' || c = '$' || c = ','))⟩

namespace Utils

/-! ### `GoogleSheetsConnector._clean_dataframe` — numeric coercion loop
(src/utils/google_sheets.py, lines 154–195)

```python
for col in df.columns:
    try:
        if not col or str(col).strip() == '':
            continue
        if len(df[col]) == 0:
            continue
        is_all_null = df[col].isna().sum() == len(df[col])
        if is_all_null:
            continue
        str_col = df[col].astype(str)
        cleaned_col = str_col.str.replace(r'[%$,]', '', regex=True)
        cleaned_col = cleaned_col.replace(['nan', '', 'None'], pd.NA)
        numeric_col = pd.to_numeric(cleaned_col, errors='coerce')
        null_count = numeric_col.isna().sum()
        total_count = len(numeric_col)
        if null_count < total_count:
            df[col] = numeric_col
        else:
            ...  # column left unchanged
    except Exception:
        continue
```

A cell is `Option String` (`none` is a pandas NA/NaN); `.astype(str)` prints
NaN as the string `"nan"`, which is why the code maps `'nan'` back to NA. -/

/-- `.astype(str)` on one cell: NaN prints as `"nan"`. -/
def strCell : Option String → String
  | none => "nan"
  | some s => s

/-- `str.replace(r'[%$,]', '', regex=True)`: delete every `%`, `$`, `,`. -/
def stripSyms (s : String) : String :=
  ⟨s.toList.filter (fun c => !(c = '%' || c = '$' || c = ','))⟩

/-- The cleaning applied to one cell before `pd.to_numeric`: stringify,
strip `%$,`, then send the exact strings `'nan'`, `''`, `'None'` to NA. -/
def cleanedCell (c : Option String) : Option String :=
  let s := stripSyms (strCell c)
  if s = "nan" || s = "" || s = "None" then none else some s

/-- One cell's value in `numeric_col`: clean, then coerce (`none` = NaN). -/
def numericCell (c : Option String) : Option ℚ :=
  (cleanedCell c).bind pdToNumeric

/-- The fate of one column under `_clean_dataframe`'s loop: skipped columns
and columns in which no cell parsed keep their original cells (`Sum.inl`);
otherwise the column is replaced by `numeric_col` (`Sum.inr`). -/
def convertNumericColumn (name : String) (cells : List (Option String)) :
    List (Option String) ⊕ List (Option ℚ) :=
  if name = "" || trimWs name.data = [] then .inl cells
  else if cells.length = 0 then .inl cells
  else if (cells.filter (· = none)).length = cells.length then .inl cells
  else if ((cells.map numericCell).filter (· = none)).length <
      (cells.map numericCell).length then .inr (cells.map numericCell)
  else .inl cells

/-! ### `GoogleSheetsConnector.get_sheet_data` (src/utils/google_sheets.py,
lines 80–133)

```python
def get_sheet_data(self, sheet_name, use_cache=True):
    cache_key = self._get_cache_key(sheet_name)
    if use_cache and self._is_cache_valid(cache_key):
        return self.cache[cache_key]['data'].copy()
    try:
        if self.client and self.spreadsheet:
            ... fetch, build DataFrame, self._clean_dataframe(data) ...
        else:
            data = self._generate_sample_data(sheet_name)
        if use_cache:
            self.cache[cache_key] = {'data': data.copy(), 'timestamp': time.time()}
        return data
    except Exception as e:
        logger.error(...)
        return pd.DataFrame()
```

Python DataFrames are mutable heap objects and `.copy()` matters here, so the
connector is modelled with an explicit object heap: addresses are heap
indices, `alloc` models constructing a fresh DataFrame object (`.copy()`
allocates a fresh object with the same contents), and the cache entry for the
single sheet under consideration stores the address of its `'data'` object
with its `'timestamp'`.  `_is_cache_valid` is the strict test
`time.time() - cached_time < cache_ttl`.  The whole `try`-block computation of
`data` (real fetch + `_clean_dataframe`, or sample data) is abstracted as the
`fetched` argument: `.ok d` when the block computes a DataFrame with contents
`d`, `.error e` when anything in it raises `e`. -/

/-- Connector state: the object heap (contents indexed by address) and the
cache entry for the sheet under consideration. -/
structure ConnState (α : Type) where
  heap : List α
  cache : Option (Nat × Int)
deriving DecidableEq, Repr

/-- Allocate a fresh DataFrame object with contents `d`; returns its
address. -/
def alloc (s : ConnState α) (d : α) : Nat × ConnState α :=
  (s.heap.length, { heap := s.heap ++ [d], cache := s.cache })

/-- Read the contents at address `a` (default for out-of-range reads). -/
def readHeap (s : ConnState α) (a : Nat) (dflt : α) : α :=
  s.heap.getD a dflt

/-- Caller-side mutation of the DataFrame object at address `a`. -/
def writeHeap (s : ConnState α) (a : Nat) (d : α) : ConnState α :=
  { heap := s.heap.set a d, cache := s.cache }

/-- `use_cache and self._is_cache_valid(cache_key)`: the address of the
cached `'data'` object when the entry exists and is fresh at time `now`. -/
def cacheFresh (s : ConnState α) (now ttl : Int) : Option Nat :=
  s.cache.bind (fun p => if now - p.2 < ttl then some p.1 else none)

/-- `get_sheet_data`: returns the address of the returned DataFrame object
and the successor state.  Note the function returns normally on every path —
in particular the `except` path allocates and returns a fresh empty DataFrame
instead of re-raising. -/
def get_sheet_data (ttl : Int) (emptyDf : α) (s : ConnState α) (now : Int)
    (useCache : Bool) (fetched : Except PyExn α) : Nat × ConnState α :=
  match useCache, cacheFresh s now ttl with
  | true, some a =>
      -- return self.cache[cache_key]['data'].copy()
      alloc s (readHeap s a emptyDf)
  | _, _ =>
      match fetched with
      | .ok d =>
          let p := alloc s d                  -- the computed `data` object
          if useCache then
            let q := alloc p.2 d              -- data.copy() stored in cache
            (p.1, { heap := q.2.heap, cache := some (q.1, now) })
          else (p.1, p.2)
      | .error _ => alloc s emptyDf           -- except: return pd.DataFrame()

end Utils

namespace DataProcessor

/-! ### IEEE-style extended values

`_process_provider_data` computes with float64 Series in which NaN and ±∞
arise and change control flow (`.fillna(100)` replaces NaN but not ±∞, and a
zero mean produces an infinite ratio).  Floats are therefore modelled as
exact rationals extended with `nan`, `inf` and `ninf`; the arithmetic rules
below are the IEEE rules for the operations the code performs (signed zeros
are not distinguished: every rational zero behaves as +0, which matches the
values that actually arise here). -/

inductive EFloat where
  | nan
  | inf
  | ninf
  | val (q : ℚ)
deriving DecidableEq, Repr

namespace EFloat

/-- IEEE division (as in `std / mean`): division by zero gives NaN for
`0 / 0` and a signed infinity otherwise. -/
def div : EFloat → EFloat → EFloat
  | nan, _ => nan
  | _, nan => nan
  | val a, val b =>
      if b = 0 then (if a = 0 then nan else if 0 < a then inf else ninf)
      else val (a / b)
  | inf, val b => if b < 0 then ninf else inf
  | ninf, val b => if b < 0 then inf else ninf
  | val _, inf => val 0
  | val _, ninf => val 0
  | inf, _ => nan
  | ninf, _ => nan

/-- IEEE multiplication (as in `ratio * 100`). -/
def mul : EFloat → EFloat → EFloat
  | nan, _ => nan
  | _, nan => nan
  | val a, val b => val (a * b)
  | inf, val b => if b = 0 then nan else if 0 < b then inf else ninf
  | val a, inf => if a = 0 then nan else if 0 < a then inf else ninf
  | ninf, val b => if b = 0 then nan else if 0 < b then ninf else inf
  | val a, ninf => if a = 0 then nan else if 0 < a then ninf else inf
  | inf, inf => inf
  | inf, ninf => ninf
  | ninf, inf => ninf
  | ninf, ninf => inf

/-- IEEE subtraction (as in `100 - x`). -/
def sub : EFloat → EFloat → EFloat
  | nan, _ => nan
  | _, nan => nan
  | val a, val b => val (a - b)
  | val _, inf => ninf
  | val _, ninf => inf
  | inf, val _ => inf
  | ninf, val _ => ninf
  | inf, inf => nan
  | ninf, ninf => nan
  | inf, ninf => inf
  | ninf, inf => ninf

/-- `.fillna(c)` on one entry: replaces NaN only (±∞ pass through). -/
def fillna (c : ℚ) : EFloat → EFloat
  | nan => val c
  | x => x

end EFloat

/-! ### `_process_provider_data` (src/utils/data_processor.py, lines 74–100)

```python
provider_stats = df.groupby('Provider').agg({
    'Patient Count': ['sum', 'mean', 'std'],
    'Avg Session Duration': 'mean'
}).round(2)
...
provider_stats['Consistency_Score'] = (
    100 - (provider_stats['Patient Count_std'] / provider_stats['Patient Count_mean'] * 100)
).fillna(100)
```

The `'Patient Count'` column was coerced with `pd.to_numeric(... 'coerce')`,
so a group is a list of optional rationals (`none` = NaN).  pandas `mean` and
`std` skip NaN entries; `std` is the sample standard deviation (`ddof=1`), so
a group with at most one non-NaN value has `std = NaN`.  `DataFrame.round(2)`
rounds half-to-even at two decimals (modelled exactly over ℚ) and leaves
NaN/±∞ unchanged; it is applied to the aggregates *before* the score is
computed.  The standard deviation of a group is generally irrational, so the
embedding passes the std in as any `EFloat` satisfying `IsStd` (NaN exactly
when the sample variance is NaN, otherwise the non-negative square root of
the sample variance). -/

/-- The non-NaN values of a group (pandas aggregations skip NaN). -/
def groupVals (g : List (Option ℚ)) : List ℚ := g.filterMap id

/-- `groupby(...).mean()` for one group: NaN when every entry is NaN. -/
def groupMean (g : List (Option ℚ)) : EFloat :=
  if (groupVals g).length = 0 then .nan
  else .val ((groupVals g).sum / ((groupVals g).length : ℚ))

/-- The sample variance (square of `groupby(...).std()`, `ddof = 1`) for one
group: NaN when fewer than two entries are non-NaN. -/
def groupVarSample (g : List (Option ℚ)) : EFloat :=
  if (groupVals g).length ≤ 1 then .nan
  else
    .val (((groupVals g).map
        (fun x => (x - (groupVals g).sum / ((groupVals g).length : ℚ)) ^ 2)).sum /
      (((groupVals g).length : ℚ) - 1))

/-- `s` is the value of `groupby(...).std()` on group `g`: NaN exactly when
the sample variance is NaN, otherwise its non-negative square root. -/
def IsStd (g : List (Option ℚ)) (s : EFloat) : Prop :=
  match groupVarSample g with
  | .val v => ∃ q : ℚ, s = .val q ∧ 0 ≤ q ∧ q * q = v
  | _ => s = .nan

/-- Round a rational half-to-even to the nearest integer (numpy rounding). -/
def roundHalfEven (x : ℚ) : ℤ :=
  let f := ⌊x⌋
  let r := x - (f : ℚ)
  if r < 1 / 2 then f
  else if 1 / 2 < r then f + 1
  else if f % 2 = 0 then f else f + 1

/-- `round(2)` on a rational: two-decimal half-to-even rounding. -/
def round2 (q : ℚ) : ℚ := (roundHalfEven (q * 100) : ℚ) / 100

/-- `DataFrame.round(2)` on one aggregate entry: NaN and ±∞ unchanged. -/
def EFloat.round2 : EFloat → EFloat
  | .val q => .val (DataProcessor.round2 q)
  | x => x

/-- `(100 - (std / mean * 100)).fillna(100)` on one group's (already
rounded) aggregates. -/
def consistencyScore (stdR meanR : EFloat) : EFloat :=
  EFloat.fillna 100 (EFloat.sub (.val 100) (EFloat.mul (EFloat.div stdR meanR) (.val 100)))

/-- The `Consistency_Score` entry for one group, from the group's raw values
and its std `s` (see `IsStd`): both aggregates go through `round(2)` first,
as in the code. -/
def providerConsistency (g : List (Option ℚ)) (s : EFloat) : EFloat :=
  consistencyScore s.round2 (groupMean g).round2

/-- The group of `'Patient Count'` values that `groupby('Provider')` forms
for provider `p`, from the table's (provider, coerced patient-count) rows. -/
def groupFor (rows : List (String × Option ℚ)) (p : String) : List (Option ℚ) :=
  (rows.filter (fun r => r.1 = p)).map Prod.snd

/-! ### Summary accessors (src/utils/data_processor.py, lines 301–318)

```python
def get_scribe_performance(self, scribe_name=None):
    if 'scribes' not in self.processed_data:
        return pd.DataFrame()
    df = self.processed_data['scribes']
    if scribe_name:
        return df[df['Scribe Name'] == scribe_name]
    return df

def get_team_comparison(self):
    if 'metrics' not in self.processed_data:
        return {}
    return self.processed_data['metrics'].get('team_comparison', {})
```

`self.processed_data` is modelled by the presence/absence of its `'scribes'`
and `'metrics'` entries (the only ones these accessors read).  The `'scribes'`
entry is a DataFrame (string column labels and string cells — the cell
representation is irrelevant to the accessors); `df[df['Scribe Name'] == n]`
raises `KeyError` when the frame has no `'Scribe Name'` column, which is the
case for the empty frame `_process_scribe_data` stores when the `Dataset`
sheet is missing or empty.  `if scribe_name:` is Python truthiness: both
`None` and the empty string take the no-filter branch.  The `'metrics'` entry
is modelled by its optional `'team_comparison'` value (a nested
metric → team-leader → value mapping, produced only when a non-empty roster
was processed). -/

/-- The nested `metric -> team leader -> value` dictionary produced by
`groupby('Team Leader').agg(...).to_dict()`. -/
def TeamComparison := List (String × List (String × Option ℚ))

instance : DecidableEq TeamComparison := by
  unfold TeamComparison
  infer_instance

/-- The `'metrics'` dictionary, restricted to the entry the accessor reads:
`team_comparison := none` models a dictionary without that key. -/
structure Metrics where
  team_comparison : Option TeamComparison

/-- A processed DataFrame (the `'scribes'` table). -/
structure PDf where
  columns : List String
  rows : List (List String)
deriving DecidableEq, Repr

/-- The processor's `processed_data` snapshot, restricted to the entries the
two accessors read; `none` models an absent dictionary key. -/
structure ProcessedData where
  scribes : Option PDf
  metrics : Option Metrics

/-- `pd.DataFrame()`. -/
def emptyPDf : PDf := { columns := [], rows := [] }

/-- `df[df['Scribe Name'] == n]` when the column exists: keep the rows whose
`'Scribe Name'` cell equals `n`. -/
def filterByName (df : PDf) (n : String) : PDf :=
  let i := df.columns.indexOf "Scribe Name"
  { columns := df.columns, rows := df.rows.filter (fun r => r.getD i "" = n) }

/-- `get_scribe_performance(scribe_name)`: `Except` captures the `KeyError`
of the filtering branch on a frame without a `'Scribe Name'` column. -/
def get_scribe_performance (p : ProcessedData) (name : Option String) :
    Except PyExn PDf :=
  match p.scribes with
  | none => .ok emptyPDf
  | some df =>
      match name with
      | some n =>
          if n = "" then .ok df
          else if "Scribe Name" ∈ df.columns then .ok (filterByName df n)
          else .error (.keyError "Scribe Name")
      | none => .ok df

/-- `get_team_comparison()`. -/
def get_team_comparison (p : ProcessedData) : TeamComparison :=
  match p.metrics with
  | none => []
  | some m => m.team_comparison.getD []

end DataProcessor

/-!
## Theorems

Helper lemmas first, then one theorem per verified claim (with its witness or
counterexample where applicable).
-/

open Google Ingest Utils DataProcessor

/-- Helper: one failing iteration of the retry loop catches the exception,
sleeps, and recurses with the invocation index advanced. -/
theorem withRetriesGo_step (fn : Nat → Except ε α) (last : Option ε) (i n : Nat)
    (e : ε) (h : fn i = .error e) :
    withRetriesGo fn last i (n + 1) =
      { outcome := (withRetriesGo fn (some e) (i + 1) n).outcome,
        calls := (withRetriesGo fn (some e) (i + 1) n).calls + 1,
        sleeps := (withRetriesGo fn (some e) (i + 1) n).sleeps + 1 } := by
  simp [withRetriesGo, h]

/-- Helper: when every invocation fails, the loop runs all its remaining
iterations and re-raises the error of the last one. -/
theorem withRetriesGo_allFail (fn : Nat → Except ε α) (errs : Nat → ε)
    (hf : ∀ j, fn j = .error (errs j)) :
    ∀ (m i : Nat) (last : Option ε),
      withRetriesGo fn last i (m + 1) =
        { outcome := .raised (errs (i + m)), calls := m + 1, sleeps := m + 1 } := by
  intro m
  induction m with
  | zero =>
      intro i last
      rw [withRetriesGo_step fn last i 0 (errs i) (hf i)]
      simp [withRetriesGo]
  | succ k ih =>
      intro i last
      rw [withRetriesGo_step fn last i (k + 1) (errs i) (hf i), ih (i + 1) (some (errs i))]
      have hik : i + 1 + k = i + (k + 1) := by omega
      rw [hik]

/-- Helper: `_with_retries` on an operation whose every invocation fails
invokes it `attempts` times, sleeps after each failure, and re-raises the
final invocation's exception. -/
theorem withRetries_allFail (fn : Nat → Except ε α) (errs : Nat → ε)
    (hf : ∀ j, fn j = .error (errs j)) (attempts : Nat) (h : 1 ≤ attempts) :
    withRetries fn attempts =
      { outcome := .raised (errs (attempts - 1)), calls := attempts,
        sleeps := attempts } := by
  obtain ⟨m, rfl⟩ : ∃ m, attempts = m + 1 := ⟨attempts - 1, by omega⟩
  simpa using withRetriesGo_allFail fn errs hf m 0 none

/-- C3.  `_with_retries` on an operation that fails on its first two
invocations and succeeds on the third, with `attempts = 5`, returns the third
invocation's result after exactly 3 invocations (and 2 backoff sleeps); and
on an operation whose every invocation fails it re-raises the final
invocation's exception unchanged after exactly `attempts` invocations. -/
theorem c3_retry_wrapper (fn gn : Nat → Except ε α) (a : α) (e0 e1 : ε)
    (errs : Nat → ε)
    (h0 : fn 0 = .error e0) (h1 : fn 1 = .error e1) (h2 : fn 2 = .ok a)
    (attempts : Nat) (hA : 1 ≤ attempts) (hg : ∀ j, gn j = .error (errs j)) :
    withRetries fn 5 = { outcome := .returned a, calls := 3, sleeps := 2 } ∧
    withRetries gn attempts =
      { outcome := .raised (errs (attempts - 1)), calls := attempts,
        sleeps := attempts } := by
  refine ⟨?_, withRetries_allFail gn errs hg attempts hA⟩
  simp [withRetries, withRetriesGo, h0, h1, h2]

/-- Witness for C3 at a concrete fails-twice-then-succeeds operation and a
concrete always-failing operation with `attempts = 4`. -/
theorem c3_retry_wrapper_witness :
    withRetries (fun i => if i < 2 then .error i else .ok 42) 5 =
      { outcome := .returned 42, calls := 3, sleeps := 2 } ∧
    withRetries (fun i => (.error (10 * i) : Except Nat Nat)) 4 =
      { outcome := .raised 30, calls := 4, sleeps := 4 } := by
  have h := c3_retry_wrapper (fun i => if i < 2 then .error i else .ok 42)
    (fun i => (.error (10 * i) : Except Nat Nat)) 42 0 1 (fun i => 10 * i)
    rfl rfl rfl 4 (by decide) (fun j => rfl)
  simpa using h

/-- C2 counterexample.  An operation that always fails with a not-found
error, run through `_with_retries` with `attempts = 5`, is invoked 5 times
(not once) with a backoff sleep after every failure, and its error surfaces
only after the final attempt: `_with_retries` catches `Exception` broadly and
does not exempt not-found failures from retrying. -/
theorem c2_counterexample :
    withRetries (fun i => (.error (PyExn.notFound i) : Except PyExn Nat)) 5 =
      { outcome := .raised (.notFound 4), calls := 5, sleeps := 5 } ∧
    ¬ ((withRetries (fun i => (.error (PyExn.notFound i) : Except PyExn Nat)) 5).calls = 1 ∧
       (withRetries (fun i => (.error (PyExn.notFound i) : Except PyExn Nat)) 5).sleeps = 0) := by
  decide

/-- C2 amended.  A not-found failure is retried like any other exception:
the wrapper re-invokes the operation up to `attempts` times, sleeping after
each failure, and raises the not-found error only after the final attempt. -/
theorem c2_notfound_retried (msgs : Nat → Nat) (attempts : Nat) (hA : 1 ≤ attempts) :
    withRetries (fun i => (.error (PyExn.notFound (msgs i)) : Except PyExn SheetsResponse))
        attempts =
      { outcome := .raised (.notFound (msgs (attempts - 1))), calls := attempts,
        sleeps := attempts } :=
  withRetries_allFail
    (fun i => (Except.error (PyExn.notFound (msgs i)) : Except PyExn SheetsResponse))
    (fun i => PyExn.notFound (msgs i)) (fun _ => rfl) attempts hA

/-- Witness for C2 amended at `attempts = 3`. -/
theorem c2_notfound_retried_witness :
    withRetries (fun i => (.error (PyExn.notFound i) : Except PyExn SheetsResponse)) 3 =
      { outcome := .raised (.notFound 2), calls := 3, sleeps := 3 } := by
  simpa using c2_notfound_retried id 3 (by decide)

/-- C1 counterexample.  `get_sheet_data` on a failing fetch (empty state, no
cached entry, the `try`-block raising a transient error) does *not* propagate
the exception: it returns normally, and the returned object's contents are
the empty table (zero rows, zero columns) — empty data substituted for a true
failure. -/
theorem c1_counterexample :
    get_sheet_data 300 Google.emptyDf { heap := [], cache := none } 0 true
        (.error (.transient 0)) =
      (0, { heap := [Google.emptyDf], cache := none }) ∧
    readHeap
        (get_sheet_data 300 Google.emptyDf { heap := [], cache := none } 0 true
          (.error (.transient 0))).2
        (get_sheet_data 300 Google.emptyDf { heap := [], cache := none } 0 true
          (.error (.transient 0))).1
        Google.emptyDf =
      { columns := .range 0, rows := [] } := by
  decide

/-- C1 amended.  `fetch_values` does propagate a terminal failure: when every
attempt of the underlying call fails, the final attempt's exception surfaces
unchanged and no empty matrix is substituted.  `get_sheet_data`, however,
catches every exception from its fetch block and returns a fresh empty
DataFrame instead (leaving the cache unchanged). -/
theorem c1_failure_propagation (call : Nat → Except PyExn SheetsResponse)
    (errs : Nat → PyExn) (hall : ∀ j, call j = .error (errs j))
    (s : ConnState Google.Df) (now ttl : Int) (e : PyExn)
    (hc : cacheFresh s now ttl = none) :
    fetch_values call = .error (errs 4) ∧
    (get_sheet_data ttl Google.emptyDf s now true (.error e)).1 = s.heap.length ∧
    readHeap (get_sheet_data ttl Google.emptyDf s now true (.error e)).2
        s.heap.length Google.emptyDf = Google.emptyDf ∧
    (get_sheet_data ttl Google.emptyDf s now true (.error e)).2.cache = s.cache := by
  have h5 := withRetries_allFail call errs hall 5 (by decide)
  refine ⟨?_, ?_, ?_, ?_⟩
  · simp [fetch_values, h5]
  · simp [get_sheet_data, hc, alloc]
  · simp [get_sheet_data, hc, alloc, readHeap, List.getD_eq_getElem?_getD,
      List.getElem?_concat_length]
  · simp [get_sheet_data, hc, alloc]

/-- Witness for C1 amended: a call whose five attempts all fail, against the
initial connector state. -/
theorem c1_failure_propagation_witness :
    fetch_values (fun i => (.error (PyExn.transient i) : Except PyExn SheetsResponse)) =
      .error (.transient 4) ∧
    (get_sheet_data 300 Google.emptyDf
        ({ heap := [], cache := none } : ConnState Google.Df) 0 true
        (.error (.notFound 1))).1 = 0 := by
  have h := c1_failure_propagation
    (fun i => (.error (PyExn.transient i) : Except PyExn SheetsResponse))
    (fun i => .transient i) (fun _ => rfl)
    { heap := [], cache := none } 0 300 (.notFound 1) rfl
  exact ⟨h.1, by simpa using h.2.1⟩

/-- Helper: `values_to_dataframe` on non-empty input, written as the explicit
branch on the header condition. -/
theorem values_to_dataframe_cons (v0 : List String) (vs : List (List String)) :
    values_to_dataframe (v0 :: vs) =
      if ((padRow (maxRowLen (v0 :: vs)) v0).any (fun h => h ≠ "") &&
          ((padRow (maxRowLen (v0 :: vs)) v0).dedup.length =
            (padRow (maxRowLen (v0 :: vs)) v0).length : Bool))
      then { columns := .named (padRow (maxRowLen (v0 :: vs)) v0),
             rows := vs.map (padRow (maxRowLen (v0 :: vs))) }
      else { columns := .range (maxRowLen (v0 :: vs)),
             rows := padRow (maxRowLen (v0 :: vs)) v0 :: vs.map (padRow (maxRowLen (v0 :: vs))) } :=
  rfl

/-- Helper: the Boolean header test of `values_to_dataframe` holds exactly
when the (padded) first row has a non-empty cell and pairwise distinct
cells. -/
theorem headerCond_iff (headers : List String) :
    (headers.any (fun h => h ≠ "") &&
        (headers.dedup.length = headers.length : Bool)) = true ↔
      (∃ h ∈ headers, h ≠ "") ∧ headers.Nodup := by
  simp only [Bool.and_eq_true, List.any_eq_true, decide_eq_true_eq]
  constructor
  · rintro ⟨hex, hlen⟩
    have hd : headers.dedup = headers := headers.dedup_sublist.eq_of_length hlen
    exact ⟨hex, hd ▸ headers.nodup_dedup⟩
  · rintro ⟨hex, hnd⟩
    exact ⟨hex, by rw [List.dedup_eq_self.mpr hnd]⟩

/-- C4.  On non-empty input, `values_to_dataframe` treats the (padded) first
row as the header row exactly when it has at least one non-empty cell and
pairwise distinct cells; otherwise the table is headerless with positional
integer column labels `0 .. max_len - 1`.  In particular
`[["A","B","A"], ["1","2","3"]]` yields a headerless table with columns
`0, 1, 2` and both rows kept as data. -/
theorem c4_header_detection :
    (∀ (v0 : List String) (vs : List (List String)),
      (values_to_dataframe (v0 :: vs) =
          { columns := .named (padRow (maxRowLen (v0 :: vs)) v0),
            rows := vs.map (padRow (maxRowLen (v0 :: vs))) } ↔
        (∃ h ∈ padRow (maxRowLen (v0 :: vs)) v0, h ≠ "") ∧
          (padRow (maxRowLen (v0 :: vs)) v0).Nodup) ∧
      (¬ ((∃ h ∈ padRow (maxRowLen (v0 :: vs)) v0, h ≠ "") ∧
            (padRow (maxRowLen (v0 :: vs)) v0).Nodup) →
        values_to_dataframe (v0 :: vs) =
          { columns := .range (maxRowLen (v0 :: vs)),
            rows := padRow (maxRowLen (v0 :: vs)) v0 ::
              vs.map (padRow (maxRowLen (v0 :: vs))) })) ∧
    values_to_dataframe [["A","B","A"], ["1","2","3"]] =
      { columns := .range 3, rows := [["A","B","A"], ["1","2","3"]] } := by
  refine ⟨?_, by decide⟩
  intro v0 vs
  by_cases hP : (∃ h ∈ padRow (maxRowLen (v0 :: vs)) v0, h ≠ "") ∧
      (padRow (maxRowLen (v0 :: vs)) v0).Nodup
  · have hb := (headerCond_iff (padRow (maxRowLen (v0 :: vs)) v0)).mpr hP
    rw [values_to_dataframe_cons, if_pos hb]
    exact ⟨⟨fun _ => hP, fun _ => rfl⟩, fun hcontra => absurd hP hcontra⟩
  · have hb : ((padRow (maxRowLen (v0 :: vs)) v0).any (fun h => h ≠ "") &&
        ((padRow (maxRowLen (v0 :: vs)) v0).dedup.length =
          (padRow (maxRowLen (v0 :: vs)) v0).length : Bool)) = false := by
      rw [Bool.eq_false_iff]
      exact fun hc => hP ((headerCond_iff _).mp hc)
    rw [values_to_dataframe_cons, if_neg (by rw [hb]; simp)]
    refine ⟨⟨fun heq => ?_, fun h => absurd h hP⟩, fun _ => rfl⟩
    exact absurd congr(($heq).columns) (by simp)

/-- Witness for C4 at the duplicate-header input: the header condition fails
there, and the theorem's headerless branch gives the positional table. -/
theorem c4_header_detection_witness :
    values_to_dataframe [["A","B","A"], ["1","2","3"]] =
      { columns := .range (maxRowLen [["A","B","A"], ["1","2","3"]]),
        rows := padRow (maxRowLen [["A","B","A"], ["1","2","3"]]) ["A","B","A"] ::
          [["1","2","3"]].map (padRow (maxRowLen [["A","B","A"], ["1","2","3"]])) } :=
  (c4_header_detection.1 ["A","B","A"] [["1","2","3"]]).2 (by decide)

/-- Helper: every row's length is bounded by `maxRowLen`. -/
theorem length_le_maxRowLen (values : List (List String)) (r : List String)
    (hr : r ∈ values) : r.length ≤ maxRowLen values := by
  induction values with
  | nil => cases hr
  | cons v vs ih =>
      rcases List.mem_cons.mp hr with h | h
      · subst h; simp [maxRowLen]
      · have := ih h
        simp only [maxRowLen, List.map_cons, List.foldr_cons] at this ⊢
        omega

/-- Helper: padding a row that is not longer than `maxLen` yields length
exactly `maxLen`. -/
theorem padRow_length (maxLen : Nat) (r : List String) (h : r.length ≤ maxLen) :
    (padRow maxLen r).length = maxLen := by
  simp only [padRow, List.length_append, List.length_replicate]
  omega

/-- C5.  Every row of `values_to_dataframe`'s output has length equal to the
maximum input row length (shorter rows are right-padded with empty strings),
and the empty input yields the empty table (zero rows, zero columns) rather
than an error. -/
theorem c5_padding_and_empty :
    (∀ (values : List (List String)) (r : List String),
        r ∈ (values_to_dataframe values).rows → r.length = maxRowLen values) ∧
    values_to_dataframe [] = { columns := .range 0, rows := [] } := by
  refine ⟨?_, rfl⟩
  intro values r hr
  match values with
  | [] => simp [values_to_dataframe] at hr
  | v0 :: vs =>
      rw [values_to_dataframe_cons] at hr
      split at hr <;> simp only at hr
      · obtain ⟨x, hx, rfl⟩ := List.mem_map.mp hr
        exact padRow_length _ _ (length_le_maxRowLen _ _ (List.mem_cons_of_mem _ hx))
      · rcases List.mem_cons.mp hr with h | h
        · subst h
          exact padRow_length _ _ (length_le_maxRowLen _ _ (List.mem_cons_self _ _))
        · obtain ⟨x, hx, rfl⟩ := List.mem_map.mp h
          exact padRow_length _ _ (length_le_maxRowLen _ _ (List.mem_cons_of_mem _ hx))

/-- Witness for C5 at a ragged input: the padded short row reaches the
maximum length 2. -/
theorem c5_padding_and_empty_witness :
    (["b", "c"] : List String).length = maxRowLen [["a"], ["b", "c"]] :=
  c5_padding_and_empty.1 [["a"], ["b", "c"]] ["b", "c"] (by decide)

/-- C6 counterexample.  In the ingest path, the designated month column
coercion of `load_patient_count` does *not* attempt the parse after stripping
`$`, `%`, `,`: the cell `"1,000"` in the designated `"jan"` column becomes
missing, although stripping the separators first (as the claim states) would
parse it as `1000`. -/
theorem c6_counterexample :
    coerceMonthColumn "jan" ["1,000"] = .inr [none] ∧
    claimedStripThenParseInt "1,000" = some 1000 := by
  decide

/-- C6 amended.  In the connector's cleaner, a converted column's cells are
exactly the clean-strip-parse results, a failed parse becoming missing (never
zero, never an exception); in the ingest path, designated month columns are
parsed by plain `int()` with no symbol stripping (so `"1,000"` becomes
missing), failures likewise becoming missing.  Coercing the `Score` column of
`[["Name","Score"],["Ann","95"],["Bo",""]]` yields `[95, missing]`, not
`[95, 0]`. -/
theorem c6_numeric_coercion (name : String) (cells : List (Option String))
    (r : List (Option ℚ)) (hconv : convertNumericColumn name cells = .inr r)
    (mname : String) (mcells : List String) (hm : mname ∈ monthCols) :
    r = cells.map numericCell ∧
    coerceMonthColumn mname mcells = .inr (mcells.map parse_int_safe) ∧
    parse_int_safe "1,000" = none ∧
    (values_to_dataframe [["Name", "Score"], ["Ann", "95"], ["Bo", ""]]).col? "Score" =
      some ["95", ""] ∧
    convertNumericColumn "Score" [some "95", some ""] = .inr [some 95, none] ∧
    ([some 95, none] : List (Option ℚ)) ≠ [some 95, some 0] := by
  refine ⟨?_, by simp [coerceMonthColumn, hm], by decide, by decide, by decide, by decide⟩
  unfold convertNumericColumn at hconv
  split_ifs at hconv with h1 h2 h3 h4
  all_goals simpa using hconv.symm

/-- Witness for C6 amended at the Score column and the `"jan"` month
column. -/
theorem c6_numeric_coercion_witness :
    ([some 95, none] : List (Option ℚ)) = [some "95", some ""].map numericCell ∧
    coerceMonthColumn "jan" ["5"] = .inr (["5"].map parse_int_safe) := by
  have h := c6_numeric_coercion "Score" [some "95", some ""] [some 95, none]
    (by decide) "jan" ["5"] (by decide)
  exact ⟨h.1, h.2.1⟩

/-- C7 counterexample.  A designated month column in which every cell fails
to parse (`["abc", "def"]` under `"jan"`) is *not* left unchanged as raw
strings by the ingest coercion: it is replaced by all-missing values. -/
theorem c7_counterexample :
    loadPatientCountCoerce [("jan", ["abc", "def"])] = [("jan", .inr [none, none])] ∧
    (Sum.inr [none, none] : List String ⊕ List (Option Int)) ≠ .inl ["abc", "def"] := by
  decide

/-- C7 amended.  The connector's cleaner replaces a column only when at least
one cell parsed: a column in which every cell fails to parse is left
unchanged as raw cells.  The ingest loader's designated month columns,
however, are replaced unconditionally (an all-unparseable designated column
becomes all-missing). -/
theorem c7_conversion_guard (name : String) (cells : List (Option String))
    (hfail : ∀ c ∈ cells, numericCell c = none)
    (mname : String) (hm : mname ∈ monthCols) (mcells : List String) :
    convertNumericColumn name cells = .inl cells ∧
    coerceMonthColumn mname mcells = .inr (mcells.map parse_int_safe) := by
  refine ⟨?_, by simp [coerceMonthColumn, hm]⟩
  unfold convertNumericColumn
  split_ifs with h1 h2 h3 h4
  · rfl
  · rfl
  · rfl
  · exfalso
    have hall : (cells.map numericCell).filter (· = none) = cells.map numericCell := by
      rw [List.filter_eq_self]
      intro a ha
      obtain ⟨c, hc, rfl⟩ := List.mem_map.mp ha
      simp [hfail c hc]
    rw [hall] at h4
    omega
  · rfl

/-- Witness for C7 amended: an all-unparseable column under the connector's
cleaner, and a month column under the ingest loader. -/
theorem c7_conversion_guard_witness :
    convertNumericColumn "score" [some "abc"] = .inl [some "abc"] ∧
    coerceMonthColumn "jan" ["x"] = .inr (["x"].map parse_int_safe) :=
  c7_conversion_guard "score" [some "abc"] (by decide) "jan" (by decide) ["x"]

/-- C8 counterexample.  The provider group `[4, -4, 0]` has mean `0` and
sample std `4`; its consistency score evaluates to `-∞`, not `100`: the
`.fillna(100)` clamp catches only NaN (`0/0`), while a zero mean with a
positive std gives `std/mean = +∞` and hence a score of `-∞`. -/
theorem c8_counterexample :
    groupMean (groupFor [("Dr", some 4), ("Dr", some (-4)), ("Dr", some 0)] "Dr") =
      .val 0 ∧
    IsStd (groupFor [("Dr", some 4), ("Dr", some (-4)), ("Dr", some 0)] "Dr") (.val 4) ∧
    providerConsistency (groupFor [("Dr", some 4), ("Dr", some (-4)), ("Dr", some 0)] "Dr")
        (.val 4) = .ninf ∧
    EFloat.ninf ≠ EFloat.val 100 := by
  have hg : groupVals (groupFor [("Dr", some 4), ("Dr", some (-4)), ("Dr", some 0)] "Dr") =
      [4, -4, 0] := by decide
  have hmean : groupMean (groupFor [("Dr", some 4), ("Dr", some (-4)), ("Dr", some 0)] "Dr") =
      .val 0 := by
    simp only [groupMean, hg]
    norm_num
  have hv : groupVarSample (groupFor [("Dr", some 4), ("Dr", some (-4)), ("Dr", some 0)] "Dr") =
      .val 16 := by
    simp only [groupVarSample, hg]
    norm_num [List.sum_cons, List.sum_nil]
  refine ⟨hmean, ?_, ?_, by simp⟩
  · simp only [IsStd, hv]
    exact ⟨4, rfl, by norm_num, by norm_num⟩
  · rw [providerConsistency, hmean]
    have h4 : round2 (4 : ℚ) = 4 := by norm_num [round2, roundHalfEven]
    have h0 : round2 (0 : ℚ) = 0 := by norm_num [round2, roundHalfEven]
    simp [consistencyScore, EFloat.round2, EFloat.div, EFloat.mul, EFloat.sub,
      EFloat.fillna, h4, h0]

/-- C8 amended.  With the aggregates rounded to two decimals first (as the
code does), the consistency score is `100 - (std/mean * 100)` whenever the
rounded mean is nonzero; a missing mean, or a zero mean together with a zero
or missing std, yields `100` — in particular any zero-variance group (all
values equal, at least two of them) scores exactly `100`; but a zero mean
with a positive std yields `-∞`, not `100`. -/
theorem c8_consistency_score (g : List (Option ℚ)) (s : EFloat) (hs : IsStd g s) :
    (groupMean g = .nan → providerConsistency g s = .val 100) ∧
    (groupMean g = .val 0 → s = .val 0 → providerConsistency g s = .val 100) ∧
    (groupMean g = .val 0 → s = .nan → providerConsistency g s = .val 100) ∧
    (∀ q m : ℚ, s = .val q → groupMean g = .val m → round2 m ≠ 0 →
        providerConsistency g s = .val (100 - round2 q / round2 m * 100)) ∧
    (∀ q : ℚ, s = .val q → 0 < round2 q → groupMean g = .val 0 →
        providerConsistency g s = .ninf) ∧
    (∀ (c : ℚ) (n : Nat), groupVals g = List.replicate (n + 2) c →
        providerConsistency g s = .val 100) := by
  refine ⟨?_, ?_, ?_, ?_, ?_, ?_⟩
  · -- mean NaN: the group has no non-NaN value, so the std is NaN too and
    -- the NaN score is filled with 100
    intro hmean
    have hempty : groupVals g = [] := by
      unfold groupMean at hmean
      split_ifs at hmean with h
      exact List.length_eq_zero.mp h
    have hvar : groupVarSample g = .nan := by
      unfold groupVarSample
      rw [hempty]
      simp
    have hsn : s = .nan := by simpa only [IsStd, hvar] using hs
    rw [providerConsistency, hsn, hmean]
    rfl
  · intro hmean hs0
    rw [providerConsistency, hmean, hs0]
    have h0 : round2 (0 : ℚ) = 0 := by norm_num [round2, roundHalfEven]
    simp [consistencyScore, EFloat.round2, EFloat.div, EFloat.mul, EFloat.sub,
      EFloat.fillna, h0]
  · intro hmean hsn
    rw [providerConsistency, hmean, hsn]
    have h0 : round2 (0 : ℚ) = 0 := by norm_num [round2, roundHalfEven]
    simp [consistencyScore, EFloat.round2, EFloat.div, EFloat.mul, EFloat.sub,
      EFloat.fillna, h0]
  · intro q m hq hm hm0
    rw [providerConsistency, hq, hm]
    simp only [EFloat.round2]
    simp [consistencyScore, EFloat.div, EFloat.mul, EFloat.sub, EFloat.fillna, hm0]
  · intro q hq hq0 hmean
    rw [providerConsistency, hq, hmean]
    simp only [EFloat.round2]
    have h00 : round2 (0 : ℚ) = 0 := by norm_num [round2, roundHalfEven]
    simp [consistencyScore, EFloat.div, EFloat.mul, EFloat.sub, EFloat.fillna, h00,
      hq0, hq0.ne']
  · intro c n hv
    have hlen : ¬((groupVals g).length ≤ 1) := by rw [hv]; simp
    have hm : (groupVals g).sum / ((groupVals g).length : ℚ) = c := by
      rw [hv]
      simp only [List.sum_replicate, List.length_replicate, nsmul_eq_mul]
      exact mul_div_cancel_left₀ c (by positivity)
    have hvar : groupVarSample g = .val 0 := by
      unfold groupVarSample
      rw [if_neg hlen, hm, hv]
      simp [List.map_replicate, List.sum_replicate]
    have hs0 : s = .val 0 := by
      have := (by simpa only [IsStd, hvar] using hs :
        ∃ q : ℚ, s = .val q ∧ 0 ≤ q ∧ q * q = 0)
      obtain ⟨q, hq, _, hqq⟩ := this
      rw [hq, mul_self_eq_zero.mp hqq]
    have hmean : groupMean g = .val c := by
      unfold groupMean
      rw [if_neg (by rw [hv]; simp), hm]
    rw [providerConsistency, hs0, hmean]
    simp only [EFloat.round2]
    have h00 : round2 (0 : ℚ) = 0 := by norm_num [round2, roundHalfEven]
    by_cases hc0 : round2 c = 0
    · simp [consistencyScore, EFloat.div, EFloat.mul, EFloat.sub, EFloat.fillna, h00, hc0]
    · simp [consistencyScore, EFloat.div, EFloat.mul, EFloat.sub, EFloat.fillna, h00, hc0]

/-- Witness for C8 amended: the zero-variance group `[80, 80]` (std `0`)
scores exactly `100`. -/
theorem c8_consistency_score_witness :
    providerConsistency [some 80, some 80] (.val 0) = .val 100 := by
  have hstd : IsStd [some 80, some 80] (.val 0) := by
    have hg : groupVals [some 80, some 80] = [80, 80] := by decide
    have hv : groupVarSample [some 80, some 80] = .val 0 := by
      simp only [groupVarSample, hg]
      norm_num [List.sum_cons, List.sum_nil]
    simp only [IsStd, hv]
    exact ⟨0, rfl, le_refl 0, by norm_num⟩
  exact (c8_consistency_score [some 80, some 80] (.val 0) hstd).2.2.2.2.2 80 0 (by decide)

/-- C9 counterexample.  (1) When the snapshot's scribes table is the empty
frame (exactly what `_process_scribe_data` stores when the `Dataset` sheet is
missing or empty), the single-entity query for an absent name raises
`KeyError('Scribe Name')` instead of returning an empty result.  (2) The
empty-string name — absent from the table — returns the *whole* table, not an
empty result, because `if scribe_name:` is falsy on `""`. -/
theorem c9_counterexample :
    get_scribe_performance { scribes := some emptyPDf, metrics := none } (some "X") =
      .error (.keyError "Scribe Name") ∧
    get_scribe_performance
        { scribes := some { columns := ["Scribe Name"], rows := [["Ann"]] },
          metrics := none } (some "") =
      .ok { columns := ["Scribe Name"], rows := [["Ann"]] } ∧
    ({ columns := ["Scribe Name"], rows := [["Ann"]] } : PDf).rows ≠ [] := by
  refine ⟨?_, rfl, by decide⟩
  rfl

/-- C9 amended.  For a snapshot whose scribes table carries a
`'Scribe Name'` column, the single-entity query with a non-empty absent name
returns an empty result (the columns with no rows) without raising; the
team-comparison query returns the empty mapping whenever the metrics entry is
absent or carries no team-comparison data (as when no roster was processed);
and both accessors are pure point-queries, returning identical results on
repeated calls against the same snapshot. -/
theorem c9_accessor_semantics (df : PDf) (m : Option Metrics) (n : String)
    (hn : n ≠ "") (hc : "Scribe Name" ∈ df.columns)
    (habs : ∀ r ∈ df.rows, r.getD (df.columns.indexOf "Scribe Name") "" ≠ n) :
    get_scribe_performance { scribes := some df, metrics := m } (some n) =
      .ok { columns := df.columns, rows := [] } ∧
    (∀ p : ProcessedData, p.metrics = none → get_team_comparison p = []) ∧
    (∀ (sc : Option PDf) (mm : Metrics), mm.team_comparison = none →
        get_team_comparison { scribes := sc, metrics := some mm } = []) ∧
    (∀ (p : ProcessedData) (nm : Option String),
        get_scribe_performance p nm = get_scribe_performance p nm ∧
        get_team_comparison p = get_team_comparison p) := by
  refine ⟨?_, ?_, ?_, fun p nm => ⟨rfl, rfl⟩⟩
  · simp only [get_scribe_performance]
    rw [if_neg hn, if_pos hc]
    have hrows : df.rows.filter
        (fun r => r.getD (df.columns.indexOf "Scribe Name") "" = n) = [] := by
      rw [List.filter_eq_nil_iff]
      intro r hr
      simpa using habs r hr
    simp only [filterByName]
    rw [hrows]
  · intro p hp
    rw [get_team_comparison, hp]
  · intro sc mm hmm
    simp only [get_team_comparison, hmm]
    rfl

/-- Witness for C9 amended: a one-row scribes table queried for the absent
name `"Bo"`. -/
theorem c9_accessor_semantics_witness :
    get_scribe_performance
        { scribes := some { columns := ["Scribe Name"], rows := [["Ann"]] },
          metrics := none } (some "Bo") =
      .ok { columns := ["Scribe Name"], rows := [] } := by
  have h := c9_accessor_semantics { columns := ["Scribe Name"], rows := [["Ann"]] }
    none "Bo" (by decide) (by decide) (by decide)
  exact h.1

/-- Helper: mutating one heap object leaves every other object's contents
unchanged. -/
theorem readHeap_writeHeap_ne {α : Type} (s : ConnState α) (i j : Nat) (d dflt : α)
    (h : i ≠ j) : readHeap (writeHeap s i d) j dflt = readHeap s j dflt := by
  simp [readHeap, writeHeap, List.getD_eq_getElem?_getD, List.getElem?_set_ne h]

/-- Helper: reading the object just allocated at the end of the heap. -/
theorem readHeap_concat_self {α : Type} (l : List α) (c : Option (Nat × Int))
    (d dflt : α) :
    readHeap { heap := l ++ [d], cache := c } l.length dflt = d := by
  simp [readHeap, List.getD_eq_getElem?_getD, List.getElem?_concat_length]

/-- Helper: allocation does not disturb existing objects. -/
theorem readHeap_concat_lt {α : Type} (l : List α) (c c' : Option (Nat × Int))
    (d dflt : α) (j : Nat) (hj : j < l.length) :
    readHeap { heap := l ++ [d], cache := c } j dflt =
      readHeap { heap := l, cache := c' } j dflt := by
  simp [readHeap, List.getD_eq_getElem?_getD, List.getElem?_append, hj]

/-- Helper: a `get_sheet_data` call that hits a fresh cache entry returns a
newly allocated copy of the cached object's contents and leaves the cache
unchanged. -/
theorem get_sheet_data_hit {α : Type} (ttl : Int) (eDf : α) (s : ConnState α)
    (now : Int) (g : Except PyExn α) (a : Nat) (t : Int)
    (hc : s.cache = some (a, t)) (hf : now - t < ttl) :
    get_sheet_data ttl eDf s now true g =
      (s.heap.length, { heap := s.heap ++ [readHeap s a eDf], cache := s.cache }) := by
  have hcf : cacheFresh s now ttl = some a := by simp [cacheFresh, hc, hf]
  simp [get_sheet_data, hcf, alloc]

/-- C10.  On every path of `get_sheet_data` (cache hit, fresh fetch with or
without caching, failure fallback), the returned DataFrame object is distinct
from the object held in the cache; consequently a caller-side mutation of the
returned object does not change the cached contents, and a later call within
the TTL returns the unmutated contents — on a fresh successful cached fetch,
exactly the data that was fetched. -/
theorem c10_cache_copy_isolation {α : Type} (ttl : Int) (eDf d' : α)
    (s : ConnState α) (now : Int) (useCache : Bool) (fetched : Except PyExn α)
    (hwf : ∀ a t, s.cache = some (a, t) → a < s.heap.length)
    (r1 : Nat) (s1 : ConnState α)
    (hr : get_sheet_data ttl eDf s now useCache fetched = (r1, s1)) :
    (∀ a t, s1.cache = some (a, t) → a ≠ r1 ∧ a < s1.heap.length ∧
        readHeap (writeHeap s1 r1 d') a eDf = readHeap s1 a eDf) ∧
    (∀ (a : Nat) (t now2 : Int) (g : Except PyExn α) (r2 : Nat) (s2 : ConnState α),
        s1.cache = some (a, t) → now2 - t < ttl →
        get_sheet_data ttl eDf (writeHeap s1 r1 d') now2 true g = (r2, s2) →
        readHeap s2 r2 eDf = readHeap s1 a eDf) ∧
    (∀ d, fetched = .ok d → useCache = true → cacheFresh s now ttl = none →
        ∀ a t, s1.cache = some (a, t) → readHeap s1 a eDf = d) := by
  have hpath :
      ((useCache = false ∨ cacheFresh s now ttl ≠ none ∨ ∃ e, fetched = .error e) ∧
        r1 = s.heap.length ∧ s1.cache = s.cache ∧ ∃ x, s1.heap = s.heap ++ [x]) ∨
      (r1 = s.heap.length ∧ useCache = true ∧ cacheFresh s now ttl = none ∧
        ∃ d, fetched = .ok d ∧ s1.cache = some (s.heap.length + 1, now) ∧
          s1.heap = (s.heap ++ [d]) ++ [d]) := by
    cases useCache with
    | true =>
        cases hcf : cacheFresh s now ttl with
        | some a0 =>
            simp only [get_sheet_data, hcf, alloc] at hr
            injection hr with h1 h2
            subst h1; subst h2
            exact .inl ⟨.inr (.inl (by simp)), rfl, rfl, ⟨_, rfl⟩⟩
        | none =>
            cases fetched with
            | ok d =>
                simp only [get_sheet_data, hcf, alloc, if_pos] at hr
                injection hr with h1 h2
                subst h1; subst h2
                exact .inr ⟨rfl, rfl, rfl, d, rfl, by simp, by simp⟩
            | error e =>
                simp only [get_sheet_data, hcf, alloc] at hr
                injection hr with h1 h2
                subst h1; subst h2
                exact .inl ⟨.inr (.inr ⟨e, rfl⟩), rfl, rfl, ⟨_, rfl⟩⟩
    | false =>
        cases hcf : cacheFresh s now ttl with
        | some a0 =>
            cases fetched with
            | ok d =>
                simp only [get_sheet_data, hcf, alloc] at hr
                injection hr with h1 h2
                subst h1; subst h2
                exact .inl ⟨.inl rfl, rfl, rfl, ⟨_, rfl⟩⟩
            | error e =>
                simp only [get_sheet_data, hcf, alloc] at hr
                injection hr with h1 h2
                subst h1; subst h2
                exact .inl ⟨.inl rfl, rfl, rfl, ⟨_, rfl⟩⟩
        | none =>
            cases fetched with
            | ok d =>
                simp only [get_sheet_data, hcf, alloc] at hr
                injection hr with h1 h2
                subst h1; subst h2
                exact .inl ⟨.inl rfl, rfl, rfl, ⟨_, rfl⟩⟩
            | error e =>
                simp only [get_sheet_data, hcf, alloc] at hr
                injection hr with h1 h2
                subst h1; subst h2
                exact .inl ⟨.inl rfl, rfl, rfl, ⟨_, rfl⟩⟩
  have key : ∀ a t, s1.cache = some (a, t) → a ≠ r1 ∧ a < s1.heap.length := by
    intro a t hc
    rcases hpath with ⟨_, hr1, hcache, x, hheap⟩ | ⟨hr1, _, _, d, _, hcache, hheap⟩
    · have ha : a < s.heap.length := hwf a t (hcache ▸ hc)
      refine ⟨by omega, ?_⟩
      rw [hheap]
      simp
      omega
    · rw [hcache] at hc
      injection hc with hc1
      injection hc1 with ha ht
      subst ha
      refine ⟨by omega, ?_⟩
      rw [hheap]
      simp
  refine ⟨?_, ?_, ?_⟩
  · intro a t hc
    obtain ⟨hne, hlt⟩ := key a t hc
    exact ⟨hne, hlt, readHeap_writeHeap_ne s1 r1 a d' eDf (fun h => hne h.symm)⟩
  · intro a t now2 g r2 s2 hc hfresh h2
    obtain ⟨hne, hlt⟩ := key a t hc
    have hc' : (writeHeap s1 r1 d').cache = some (a, t) := hc
    rw [get_sheet_data_hit ttl eDf (writeHeap s1 r1 d') now2 g a t hc' hfresh] at h2
    injection h2 with h1 h2'
    subst h1; subst h2'
    have hlen : (writeHeap s1 r1 d').heap.length = s1.heap.length := by
      simp [writeHeap]
    calc readHeap
          { heap := (writeHeap s1 r1 d').heap ++ [readHeap (writeHeap s1 r1 d') a eDf],
            cache := (writeHeap s1 r1 d').cache }
          (writeHeap s1 r1 d').heap.length eDf
        = readHeap (writeHeap s1 r1 d') a eDf :=
          readHeap_concat_self _ _ _ _
      _ = readHeap s1 a eDf := readHeap_writeHeap_ne s1 r1 a d' eDf (fun h => hne h.symm)
  · intro d hfet huse hcfn a t hc
    rcases hpath with ⟨hcase, _, _, _⟩ | ⟨hr1, _, _, d0, hfet0, hcache, hheap⟩
    · rcases hcase with h | h | ⟨e, he⟩
      · rw [huse] at h; cases h
      · exact absurd hcfn h
      · rw [hfet] at he; cases he
    · have hd : d0 = d := by
        rw [hfet] at hfet0
        injection hfet0 with h
        exact h.symm
      rw [hcache] at hc
      injection hc with hc1
      injection hc1 with ha ht
      subst ha
      rw [← hd]
      simp only [readHeap, hheap]
      rw [show s.heap.length + 1 = (s.heap ++ [d0]).length by simp]
      rw [List.getD_eq_getElem?_getD, List.getElem?_concat_length]
      rfl

/-- Witness for C10: a fresh successful cached fetch of `7` into the empty
connector state, followed by the caller overwriting the returned object with
`99`; the second call (10 time units later, within the TTL of 300) still
returns `7`. -/
theorem c10_cache_copy_isolation_witness :
    readHeap
        (get_sheet_data 300 (0 : Nat)
          (writeHeap { heap := [7, 7], cache := some (1, 0) } 0 99) 10 true (.ok 5)).2
        (get_sheet_data 300 (0 : Nat)
          (writeHeap { heap := [7, 7], cache := some (1, 0) } 0 99) 10 true (.ok 5)).1
        0 = 7 := by
  have h := c10_cache_copy_isolation 300 (0 : Nat) 99
    { heap := [], cache := none } 0 true (.ok 7) (by simp) 0
    { heap := [7, 7], cache := some (1, 0) } rfl
  have h2 := h.2.1 1 0 10 (.ok 5)
    (get_sheet_data 300 (0 : Nat)
      (writeHeap { heap := [7, 7], cache := some (1, 0) } 0 99) 10 true (.ok 5)).1
    (get_sheet_data 300 (0 : Nat)
      (writeHeap { heap := [7, 7], cache := some (1, 0) } 0 99) 10 true (.ok 5)).2
    rfl (by decide) rfl
  simpa using h2

end ScribeDash
